import Mathlib

/-!
Verification of the S3 analysis service (`servers/s3/main.py`).

The file embeds the pure core of the service in Lean:
* `pySplit` models Python `str.split(sep)` for a one-character separator,
* `get_file_extension`, `object_to_dataframe`, `get_object_statistics`
  and the three route handlers are translated from the source,
* pandas dataframes are modelled by `DataFrame` (column names, dtype
  strings, and rows of optional string cells, `none` standing for a
  null/NaN value); `read_csv` models `pandas.read_csv(..., sep=";")`
  at that level of abstraction (field splitting on the delimiter,
  first line as header, empty field as null, blank lines skipped);
  `pandas.read_parquet` stays an abstract parameter `readParquet`,
* the S3 client is modelled by a record of fallible functions
  (`S3Store`), exceptions by `Except String`.
-/

set_option autoImplicit false

namespace S3Spec

/-- Model of Python `str.split(c)` on a one-character separator, over the
character list of the string.  `pySplit c l` always returns at least one
(possibly empty) segment, exactly as in Python. -/
def pySplit (c : Char) : List Char → List (List Char)
  | [] => [[]]
  | x :: xs =>
    let rest := pySplit c xs
    if x = c then [] :: rest
    else
      match rest with
      | [] => [[x]]
      | y :: ys => (x :: y) :: ys

/-- The maximal suffix after the final occurrence of `c` (the whole list
when `c` does not occur): the specification-side reading of
"the substring after the final dot". -/
def afterLast (c : Char) (l : List Char) : List Char :=
  (l.reverse.takeWhile (fun a => a != c)).reverse

theorem pySplit_ne_nil (c : Char) (l : List Char) : pySplit c l ≠ [] := by
  cases l with
  | nil => simp [pySplit]
  | cons x xs =>
    simp only [pySplit]
    by_cases hx : x = c
    · simp [hx]
    · simp only [if_neg hx]
      cases pySplit c xs with
      | nil => simp
      | cons y ys => simp

theorem pySplit_of_not_mem {c : Char} {l : List Char} (h : c ∉ l) :
    pySplit c l = [l] := by
  induction l with
  | nil => rfl
  | cons x xs ih =>
    have hx : x ≠ c := fun he => h (he ▸ List.mem_cons_self x xs)
    have hxs : c ∉ xs := fun hm => h (List.mem_cons_of_mem x hm)
    simp [pySplit, if_neg hx, ih hxs]

theorem length_pySplit_ge_two {c : Char} {l : List Char} (h : c ∈ l) :
    2 ≤ (pySplit c l).length := by
  induction l with
  | nil => cases h
  | cons x xs ih =>
    simp only [pySplit]
    by_cases hx : x = c
    · have h1 : 1 ≤ (pySplit c xs).length :=
        List.length_pos.mpr (pySplit_ne_nil c xs)
      simpa [hx] using Nat.succ_le_succ h1
    · have hxs : c ∈ xs := by
        rcases List.mem_cons.mp h with h' | h'
        · exact absurd h'.symm hx
        · exact h'
      have h2 := ih hxs
      simp only [if_neg hx]
      cases hps : pySplit c xs with
      | nil => exact absurd hps (pySplit_ne_nil c xs)
      | cons y ys => simpa [hps] using h2

theorem takeWhile_append_of_exists_neg {α : Type} {p : α → Bool}
    {l : List α} (m : List α) (h : ∃ a ∈ l, p a = false) :
    (l ++ m).takeWhile p = l.takeWhile p := by
  induction l with
  | nil => rcases h with ⟨a, ha, _⟩; cases ha
  | cons x xs ih =>
    by_cases hx : p x = true
    · have h' : ∃ a ∈ xs, p a = false := by
        rcases h with ⟨a, ha, hpa⟩
        rcases List.mem_cons.mp ha with h' | h'
        · rw [h'] at hpa; rw [hpa] at hx; cases hx
        · exact ⟨a, h', hpa⟩
      simp [List.takeWhile_cons, hx, ih h']
    · have hx' : p x = false := by
        cases hpx : p x
        · rfl
        · exact absurd hpx hx
      simp [List.takeWhile_cons, hx']

theorem takeWhile_append_of_all {α : Type} {p : α → Bool} {l : List α}
    (m : List α) (h : ∀ a ∈ l, p a = true) :
    (l ++ m).takeWhile p = l ++ m.takeWhile p := by
  induction l with
  | nil => simp
  | cons x xs ih =>
    have hx := h x (List.mem_cons_self x xs)
    have hxs : ∀ a ∈ xs, p a = true := fun a ha =>
      h a (List.mem_cons_of_mem x ha)
    simp [List.takeWhile_cons, hx, ih hxs]

theorem afterLast_cons_self (c : Char) (xs : List Char) :
    afterLast c (c :: xs) = afterLast c xs := by
  unfold afterLast
  simp only [List.reverse_cons]
  by_cases hall : ∀ a ∈ xs.reverse, (a != c) = true
  · rw [takeWhile_append_of_all _ hall, List.takeWhile_eq_self_iff.mpr hall]
    simp [List.takeWhile_cons]
  · have h' : ∃ a ∈ xs.reverse, (a != c) = false := by
      push_neg at hall
      rcases hall with ⟨a, ha, hpa⟩
      exact ⟨a, ha, by simpa using hpa⟩
    rw [takeWhile_append_of_exists_neg _ h']

theorem afterLast_of_not_mem {c : Char} {l : List Char} (h : c ∉ l) :
    afterLast c l = l := by
  unfold afterLast
  have hall : ∀ a ∈ l.reverse, (a != c) = true := by
    intro a ha
    have : a ∈ l := List.mem_reverse.mp ha
    simp only [bne_iff_ne, ne_eq]
    exact fun he => h (he ▸ this)
  rw [List.takeWhile_eq_self_iff.mpr hall, List.reverse_reverse]

theorem afterLast_cons_of_mem {c x : Char} {xs : List Char} (h : c ∈ xs) :
    afterLast c (x :: xs) = afterLast c xs := by
  unfold afterLast
  simp only [List.reverse_cons]
  have h' : ∃ a ∈ xs.reverse, (a != c) = false :=
    ⟨c, List.mem_reverse.mpr h, by simp⟩
  rw [takeWhile_append_of_exists_neg _ h']

theorem afterLast_cons_of_not_mem {c x : Char} {xs : List Char}
    (hx : x ≠ c) (h : c ∉ xs) : afterLast c (x :: xs) = x :: xs := by
  have : c ∉ x :: xs := by
    intro hm
    rcases List.mem_cons.mp hm with h' | h'
    · exact hx h'.symm
    · exact h h'
  exact afterLast_of_not_mem this

theorem getLast?_pySplit (c : Char) (l : List Char) :
    (pySplit c l).getLast? = some (afterLast c l) := by
  induction l with
  | nil => simp [pySplit, afterLast]
  | cons x xs ih =>
    simp only [pySplit]
    by_cases hx : x = c
    · subst hx
      rw [if_pos rfl, afterLast_cons_self]
      cases hps : pySplit x xs with
      | nil => exact absurd hps (pySplit_ne_nil x xs)
      | cons y ys =>
        rw [hps] at ih
        simpa using ih
    · rw [if_neg hx]
      by_cases hmem : c ∈ xs
      · cases hps : pySplit c xs with
        | nil => exact absurd hps (pySplit_ne_nil c xs)
        | cons y ys =>
          have hlen := length_pySplit_ge_two hmem
          rw [hps] at hlen ih
          cases ys with
          | nil => simp at hlen
          | cons z zs =>
            rw [afterLast_cons_of_mem hmem]
            simpa using ih
      · rw [pySplit_of_not_mem hmem, afterLast_cons_of_not_mem hx hmem]
        simp

/-! ### The tabular data model -/

/-- Model of a pandas `DataFrame` as far as the service observes it:
ordered column names, a dtype string per column, and ordered rows of
optional string cells (`none` models a null/NaN entry).  The service
never relies on numeric dtype inference, so cells are kept as strings. -/
structure DataFrame where
  colNames : List String
  dtypes : List String
  rows : List (List (Option String))
deriving DecidableEq, Repr

/-- `pandas.DataFrame.head(n)`: the first `n` rows, all columns. -/
def DataFrame.head (df : DataFrame) (n : Nat) : DataFrame :=
  { df with rows := df.rows.take n }

/-- `pandas.DataFrame.to_dict("records")`: one key/value object per row,
keys in the frame's column order. -/
def DataFrame.to_records (df : DataFrame) : List (List (String × Option String)) :=
  df.rows.map (fun r => df.colNames.zip r)

/-- One parsed CSV field, as `pandas.read_csv` interprets it: an empty
field is a null (NaN), anything else is the field text. -/
def decodeCell (field : List Char) : Option String :=
  if field = [] then none else some (String.mk field)

/-- Model of `pandas.read_csv(io.BytesIO(...), sep=";")` over the raw
character stream: split into lines, skip blank lines (pandas
`skip_blank_lines=True` default), first remaining line is the header,
every other line is split on the `;` delimiter into cells.  Numeric
dtype inference is not modelled: every parsed column carries the
`object` dtype and string cells.  An input with no non-blank line fails
like pandas `EmptyDataError`. -/
def read_csv (raw : List Char) : Except String DataFrame :=
  match (pySplit ('\n') raw).filter (fun line => !line.isEmpty) with
  | [] => Except.error "No columns to parse from file"
  | header :: rest =>
    let colNames := (pySplit (';') header).map (fun f => String.mk f)
    Except.ok
      { colNames := colNames
        dtypes := colNames.map (fun _ => "object")
        rows := rest.map (fun line => (pySplit (';') line).map decodeCell) }

/-- A single quote character, used to reproduce the Python error text
`Unsupported file extension '<ext>'`. -/
def sq : String := String.mk [Char.ofNat 39]

/-- The message of the `ValueError` raised by `object_to_dataframe` on an
extension outside the supported set. -/
def unsupported_extension_msg (file_extension : String) : String :=
  "Unsupported file extension " ++ sq ++ file_extension ++ sq

/-- Translation of `object_to_dataframe(data, file_extension)`:
dispatch on the extension, `csv` via `read_csv` with the `;` separator,
`parquet` via the external `pandas.read_parquet` (kept abstract as the
parameter `readParquet`), anything else raises `ValueError`. -/
def object_to_dataframe (readParquet : List Char → Except String DataFrame)
    (data : List Char) (file_extension : String) : Except String DataFrame :=
  if file_extension = "csv" then read_csv data
  else if file_extension = "parquet" then readParquet data
  else Except.error (unsupported_extension_msg file_extension)

/-! ### Extension resolution -/

/-- Translation of `get_file_extension(object_key)`:
`object_key.split(".")[-1]`, returned as an optional value exactly as in
the source (`[-1]` on the split list, `None` only if the split had no
segments, which never happens). -/
def get_file_extension (object_key : String) : Option String :=
  match (pySplit ('.') object_key.data).getLast? with
  | some extension => some (String.mk extension)
  | none => none

/-- The extension `get_file_extension` actually computes: the suffix of
the key after its final dot. -/
def extOf (object_key : String) : String :=
  String.mk (afterLast ('.') object_key.data)

theorem get_file_extension_eq (object_key : String) :
    get_file_extension object_key = some (extOf object_key) := by
  unfold get_file_extension extOf
  rw [getLast?_pySplit]

/-! ### Statistics -/

/-- The `rows` part of the statistics object. -/
structure RowStats where
  count : Nat
deriving DecidableEq, Repr

/-- One per-column entry of the statistics object. -/
structure ColumnStat where
  name : String
  type : String
  null_value_count : Nat
deriving DecidableEq, Repr

/-- The value returned by `get_object_statistics`. -/
structure ObjectStats where
  rows : RowStats
  columns : List ColumnStat
deriving DecidableEq, Repr

/-- Translation of `get_object_statistics(data)`: the row count is
`len(data.index)`; for each column, in the frame's column order, its
name, the string rendering of its dtype, and `data[col].isnull().sum()`
— the number of rows whose cell in that column is null. -/
def get_object_statistics (data : DataFrame) : ObjectStats :=
  { rows := { count := data.rows.length }
    columns := (List.range data.colNames.length).map (fun j =>
      { name := data.colNames.getD j ""
        type := data.dtypes.getD j ""
        null_value_count := data.rows.countP (fun r => (r.getD j none).isNone) }) }

/-! ### Request models and their validation -/

/-- The `S3ObjectInput` pydantic model: both fields are declared as
required `str` fields. -/
structure S3ObjectInput where
  bucket_name : String
  object_key : String
deriving DecidableEq, Repr

/-- The `S3BucketInput` pydantic model: a required `str` bucket name and
a required-but-nullable `Optional[str]` object prefix. -/
structure S3BucketInput where
  bucket_name : String
  object_prefix : Option String
deriving DecidableEq, Repr

/-- Model of the FastAPI/pydantic validation of `S3ObjectInput`: a field
that is absent from the request body is rejected before the handler
runs; a present string of any content (including the empty string) is
accepted, since the model declares plain `str` fields with no length
constraint. -/
def parseS3ObjectInput (bucket_name object_key : Option String) :
    Except String S3ObjectInput :=
  match bucket_name, object_key with
  | some b, some k => Except.ok { bucket_name := b, object_key := k }
  | _, _ => Except.error "Field required"

/-- Model of the FastAPI/pydantic validation of `S3BucketInput`:
`bucket_name` is a required `str`; the prefix is declared
`Optional[str] = Field(...)` — required to be present in the body, but
allowed to be null.  The outer `Option` of the second argument is
presence in the request body, the inner one nullability.  A missing
field is rejected before the handler runs; a present field of any
content — empty string or null prefix included — is accepted. -/
def parseS3BucketInput (bucket_name : Option String)
    (prefix_field : Option (Option String)) : Except String S3BucketInput :=
  match bucket_name, prefix_field with
  | some b, some p => Except.ok { bucket_name := b, object_prefix := p }
  | _, _ => Except.error "Field required"

/-! ### The object-store client -/

/-- One entry of a `list_objects_v2` listing. -/
structure S3ObjectMeta where
  key : String
  size : Nat
deriving DecidableEq, Repr

/-- The parts of a `list_objects_v2` response the handler reads: `Name`,
`KeyCount`, and `Contents` (already defaulted to `[]` when absent, as
the handler does with `response.get("Contents", [])`). -/
structure ListResponse where
  name : String
  keyCount : Nat
  contents : List S3ObjectMeta
deriving DecidableEq, Repr

/-- Model of the boto3 S3 client as the handlers use it.  Each call
either returns its payload or raises, modelled by `Except String` with
the exception's description as the error. -/
structure S3Store where
  getObject : String → String → Except String (List Char)
  getObjectTagging : String → String → Except String (List (String × String))
  listObjectsV2 : String → Option String → Except String ListResponse

/-! ### Response shapes -/

/-- The two failure bodies observed in the source: the stats routes
return `{"status": 400, "message": ...}`, the analyze route returns
`{"message": ...}` with no status field. -/
inductive FailureShape where
  | withStatus (status : Nat) (message : String)
  | messageOnly (message : String)
deriving DecidableEq, Repr

/-- Whether a failure body carries a `status` field. -/
def FailureShape.hasStatus : FailureShape → Bool
  | .withStatus _ _ => true
  | .messageOnly _ => false

/-- Response of the `/analyze_s3_object` route. -/
inductive AnalyzeResult where
  | success (status : Nat) (records : List (List (String × Option String)))
  | failure (shape : FailureShape)
deriving DecidableEq, Repr

/-- Response of the `/get_s3_object_stats` route. -/
inductive StatsResult where
  | success (status : Nat) (metadata : List (String × String)) (statistics : ObjectStats)
  | failure (shape : FailureShape)
deriving DecidableEq, Repr

/-- Response of the `/get_s3_bucket_stats` route; `objects` holds the
`{Key, Size}` pairs. -/
inductive BucketStatsResult where
  | success (status : Nat) (bucket_name : String) (num_objects : Nat)
      (objects : List (String × Nat))
  | failure (shape : FailureShape)
deriving DecidableEq, Repr

/-- Message of the `ValueError` raised when the resolved extension is
`None` (the branch claim C9 shows unreachable). -/
def noExtensionMsg : String :=
  "The file does not have an allowed extension (csv, xlsx or parquet)."

/-- The uniform wrapping applied by every `except` block:
`f"The file could not be processed with error: {e}"`. -/
def processErrorMsg (e : String) : String :=
  "The file could not be processed with error: " ++ e

/-! ### Route handlers

Each handler is split into its `try` body (exception propagation through
`Except String`) and the surrounding `except` boundary, mirroring the
single try/except of each route. -/

/-- The `try` body of `analyze_s3_object`: resolve the extension (raise
if `None`), fetch the object, decode it, and return the first 50 rows as
records. -/
def analyze_body (readParquet : List Char → Except String DataFrame)
    (store : S3Store) (data : S3ObjectInput) :
    Except String (List (List (String × Option String))) :=
  match get_file_extension data.object_key with
  | none => Except.error noExtensionMsg
  | some file_extension =>
    match store.getObject data.bucket_name data.object_key with
    | Except.error e => Except.error e
    | Except.ok raw =>
      match object_to_dataframe readParquet raw file_extension with
      | Except.error e => Except.error e
      | Except.ok dataframe => Except.ok ((dataframe.head 50).to_records)

/-- Translation of the `/analyze_s3_object` handler: on success
`{"status": 200, "records": ...}`, on any exception a message-only
failure body. -/
def analyze_s3_object (readParquet : List Char → Except String DataFrame)
    (store : S3Store) (data : S3ObjectInput) : AnalyzeResult :=
  match analyze_body readParquet store data with
  | Except.ok records => AnalyzeResult.success 200 records
  | Except.error e => AnalyzeResult.failure (FailureShape.messageOnly (processErrorMsg e))

/-- The `analyze_s3_object` body with the dead no-extension branch
removed: the extension is taken directly as the suffix after the final
dot.  Used to state that the `ValueError` branch is unreachable. -/
def analyze_body_nocheck (readParquet : List Char → Except String DataFrame)
    (store : S3Store) (data : S3ObjectInput) :
    Except String (List (List (String × Option String))) :=
  match store.getObject data.bucket_name data.object_key with
  | Except.error e => Except.error e
  | Except.ok raw =>
    match object_to_dataframe readParquet raw (extOf data.object_key) with
    | Except.error e => Except.error e
    | Except.ok dataframe => Except.ok ((dataframe.head 50).to_records)

/-- The `try` body of `get_s3_object_stats`: extension check, tag fetch,
object fetch, decode, statistics. -/
def object_stats_body (readParquet : List Char → Except String DataFrame)
    (store : S3Store) (data : S3ObjectInput) :
    Except String ((List (String × String)) × ObjectStats) :=
  match get_file_extension data.object_key with
  | none => Except.error noExtensionMsg
  | some file_extension =>
    match store.getObjectTagging data.bucket_name data.object_key with
    | Except.error e => Except.error e
    | Except.ok tags =>
      match store.getObject data.bucket_name data.object_key with
      | Except.error e => Except.error e
      | Except.ok raw =>
        match object_to_dataframe readParquet raw file_extension with
        | Except.error e => Except.error e
        | Except.ok dataframe => Except.ok (tags, get_object_statistics dataframe)

/-- Translation of the `/get_s3_object_stats` handler. -/
def get_s3_object_stats (readParquet : List Char → Except String DataFrame)
    (store : S3Store) (data : S3ObjectInput) : StatsResult :=
  match object_stats_body readParquet store data with
  | Except.ok (tags, stats) => StatsResult.success 200 tags stats
  | Except.error e =>
    StatsResult.failure (FailureShape.withStatus 400 (processErrorMsg e))

/-- The listing call of the bucket-stats handler:
`if data.object_prefix: ... else: ...` — Python truthiness, so both a
missing prefix and the empty-string prefix take the no-prefix call. -/
def list_call (store : S3Store) (data : S3BucketInput) :
    Except String ListResponse :=
  match S3BucketInput.object_prefix data with
  | some p =>
    if p = "" then store.listObjectsV2 data.bucket_name none
    else store.listObjectsV2 data.bucket_name (some p)
  | none => store.listObjectsV2 data.bucket_name none

/-- The `try` body of the bucket-stats route (defined in the source under
the name `get_s3_object_stats` as well; renamed here to stay
distinguishable): list the bucket, then shape `Name`, `KeyCount` and the
`{Key, Size}` pairs. -/
def get_s3_bucket_stats_body (store : S3Store) (data : S3BucketInput) :
    Except String (String × Nat × List (String × Nat)) :=
  match list_call store data with
  | Except.error e => Except.error e
  | Except.ok response =>
    let objects :=
      if response.contents.length > 0 then
        response.contents.map (fun obj => (obj.key, obj.size))
      else []
    Except.ok (response.name, response.keyCount, objects)

/-- Translation of the `/get_s3_bucket_stats` handler. -/
def get_s3_bucket_stats (store : S3Store) (data : S3BucketInput) :
    BucketStatsResult :=
  match get_s3_bucket_stats_body store data with
  | Except.ok (nm, cnt, objects) => BucketStatsResult.success 200 nm cnt objects
  | Except.error e =>
    BucketStatsResult.failure (FailureShape.withStatus 400 (processErrorMsg e))

/-! ### Generic helper lemmas and decidability -/

instance {ε α : Type} [DecidableEq ε] [DecidableEq α] : DecidableEq (Except ε α)
  | Except.error a, Except.error b =>
    if h : a = b then isTrue (by rw [h])
    else isFalse (fun hc => by cases hc; exact h rfl)
  | Except.error _, Except.ok _ => isFalse (fun hc => by cases hc)
  | Except.ok _, Except.error _ => isFalse (fun hc => by cases hc)
  | Except.ok a, Except.ok b =>
    if h : a = b then isTrue (by rw [h])
    else isFalse (fun hc => by cases hc; exact h rfl)

theorem take_map {α β : Type} (f : α → β) :
    ∀ (n : Nat) (l : List α), (l.take n).map f = (l.map f).take n
  | 0, _ => by simp
  | _ + 1, [] => rfl
  | n + 1, x :: xs => by simp [take_map f n xs]

theorem get?_take_of_lt {α : Type} :
    ∀ (l : List α) (n i : Nat), i < n → (l.take n).get? i = l.get? i
  | [], _, _, _ => by simp
  | _ :: _, 0, _, h => by cases h
  | _ :: _, _ + 1, 0, _ => rfl
  | _ :: xs, n + 1, i + 1, h =>
    get?_take_of_lt xs n i (Nat.lt_of_succ_lt_succ h)

theorem take_of_le_length {α : Type} :
    ∀ (l : List α) (n : Nat), l.length ≤ n → l.take n = l
  | [], _, _ => by simp
  | x :: xs, 0, h => by cases h
  | x :: xs, n + 1, h => by
    simp only [List.take_succ_cons, List.cons.injEq, true_and]
    exact take_of_le_length xs n (Nat.le_of_succ_le_succ h)

theorem length_filter_map_eq_countP {α β : Type} (f : α → β) (p : β → Bool)
    (l : List α) :
    ((l.map f).filter p).length = l.countP (fun a => p (f a)) := by
  induction l with
  | nil => rfl
  | cons x xs ih =>
    by_cases h : p (f x) = true
    · simp [List.filter_cons, List.countP_cons, h, ih]
    · have h' : p (f x) = false := by
        cases hp : p (f x)
        · rfl
        · exact absurd hp h
      simp [List.filter_cons, List.countP_cons, h', ih]

/-! ### Fixtures used by the witnesses -/

/-- Stub for the external parquet reader in concrete instantiations that
never take the parquet branch. -/
def readParquetStub : List Char → Except String DataFrame :=
  fun _ => Except.error "parquet reader not used"

/-- A store holding one object whose raw bytes are `raw`; tag fetches
succeed with no tags, listings fail. -/
def csvStore (raw : List Char) : S3Store :=
  { getObject := fun _ _ => Except.ok raw
    getObjectTagging := fun _ _ => Except.ok []
    listObjectsV2 := fun _ _ => Except.error "listing not used" }

/-- A store whose every call raises with description `e`. -/
def errStore (e : String) : S3Store :=
  { getObject := fun _ _ => Except.error e
    getObjectTagging := fun _ _ => Except.error e
    listObjectsV2 := fun _ _ => Except.error e }

/-- A store with one existing, empty bucket. -/
def emptyBucketStore : S3Store :=
  { getObject := fun _ _ => Except.error "no such object"
    getObjectTagging := fun _ _ => Except.error "no such object"
    listObjectsV2 := fun _ _ =>
      Except.ok { name := "mybucket", keyCount := 0, contents := [] } }

/-- A concrete four-line CSV object. -/
def rawCsv : List Char := "a;b\n1;2\n3;4\n5;6".data

/-- The frame `read_csv` yields for `rawCsv`. -/
def dfCsv : DataFrame :=
  { colNames := ["a", "b"]
    dtypes := ["object", "object"]
    rows := [[some "1", some "2"], [some "3", some "4"], [some "5", some "6"]] }

/-- A one-column frame with 2 nulls out of 5 rows. -/
def dfFive : DataFrame :=
  { colNames := ["a"]
    dtypes := ["float64"]
    rows := [[some "1"], [none], [some "2"], [none], [some "3"]] }

/-! ### Claim C2 -/

/-- C2: for every byte content, decoding with an extension outside
{csv, parquet} fails with the unsupported-extension error; the decoder
never returns a frame for an unsupported extension. -/
theorem c2_unsupported_extension_fails
    (readParquet : List Char → Except String DataFrame) (data : List Char)
    (file_extension : String) (hcsv : file_extension ≠ "csv")
    (hparquet : file_extension ≠ "parquet") :
    object_to_dataframe readParquet data file_extension =
      Except.error (unsupported_extension_msg file_extension) := by
  unfold object_to_dataframe
  rw [if_neg hcsv, if_neg hparquet]

/-- Witness for C2 at extension `txt`. -/
theorem c2_witness :
    object_to_dataframe readParquetStub "any content".data "txt" =
      Except.error (unsupported_extension_msg "txt") :=
  c2_unsupported_extension_fails readParquetStub "any content".data "txt"
    (by decide) (by decide)

/-! ### Claim C3 -/

/-- C3: for every object key containing at least one dot, extension
resolution returns the substring after the final dot; for every key
containing no dot, it returns the whole key. -/
theorem c3_extension_resolution (object_key : String) :
    ('.' ∈ object_key.data →
      get_file_extension object_key =
        some (String.mk (afterLast '.' object_key.data)))
    ∧ ('.' ∉ object_key.data →
      get_file_extension object_key = some object_key) := by
  constructor
  · intro _
    exact get_file_extension_eq object_key
  · intro h
    rw [get_file_extension_eq object_key]
    unfold extOf
    rw [afterLast_of_not_mem h]

/-- Witness for C3 on a dotted and an undotted key. -/
theorem c3_witness :
    get_file_extension "archive.tar.gz" = some "gz"
    ∧ get_file_extension "README" = some "README" :=
  ⟨((c3_extension_resolution "archive.tar.gz").1 (by decide)).trans (by decide),
   (c3_extension_resolution "README").2 (by decide)⟩

/-! ### Claim C9 -/

/-- C9: for every non-empty object key, extension resolution never
yields an absent value, so the analyze handler's error branch for a
missing extension is unreachable: the handler body equals the body with
that branch removed, and rejection of a bad key can only come out of the
decoder as the unsupported-extension failure. -/
theorem c9_no_extension_branch_unreachable (object_key : String)
    (hkey : object_key ≠ "") :
    (get_file_extension object_key).isSome = true
    ∧ (∀ (readParquet : List Char → Except String DataFrame)
        (store : S3Store) (data : S3ObjectInput),
        data.object_key = object_key →
        analyze_body readParquet store data =
          analyze_body_nocheck readParquet store data) := by
  refine ⟨?_, ?_⟩
  · rw [get_file_extension_eq]
    rfl
  · intro readParquet store data _
    unfold analyze_body analyze_body_nocheck
    rw [get_file_extension_eq data.object_key]

/-- Witness for C9 at the key `data.csv`. -/
theorem c9_witness :
    (get_file_extension "data.csv").isSome = true
    ∧ analyze_body readParquetStub (csvStore rawCsv)
        { bucket_name := "bucket", object_key := "data.csv" } =
      analyze_body_nocheck readParquetStub (csvStore rawCsv)
        { bucket_name := "bucket", object_key := "data.csv" } := by
  have h := c9_no_extension_branch_unreachable "data.csv" (by decide)
  exact ⟨h.1, h.2 readParquetStub (csvStore rawCsv)
    { bucket_name := "bucket", object_key := "data.csv" } rfl⟩

/-! ### Claim C4 -/

/-- C4: `get_object_statistics` is a pure function of the frame (it is a
Lean function, hence deterministic) reporting the frame's row count and,
for each column in the frame's column order, its name, the string
rendering of its declared dtype, and the number of null cells of that
column over all rows. -/
theorem c4_statistics_exact (df : DataFrame) :
    (get_object_statistics df).rows.count = df.rows.length
    ∧ (get_object_statistics df).columns.length = df.colNames.length
    ∧ (∀ j, j < df.colNames.length →
        (get_object_statistics df).columns.get? j =
          some { name := df.colNames.getD j ""
                 type := df.dtypes.getD j ""
                 null_value_count :=
                   ((df.rows.map (fun r => r.getD j none)).filter
                     (fun v => v.isNone)).length }) := by
  refine ⟨rfl, by simp [get_object_statistics], ?_⟩
  intro j hj
  unfold get_object_statistics
  simp only [List.get?_map, List.get?_range hj, Option.map_some']
  rw [length_filter_map_eq_countP]

/-- Witness for C4: a column with 2 nulls out of 5 rows reports
`null_value_count = 2`. -/
theorem c4_witness :
    (get_object_statistics dfFive).rows.count = 5
    ∧ (get_object_statistics dfFive).columns.get? 0 =
        some { name := "a", type := "float64", null_value_count := 2 } := by
  have h := c4_statistics_exact dfFive
  exact ⟨h.1.trans (by decide), (h.2.2 0 (by decide)).trans (by decide)⟩

/-! ### Claim C10 -/

/-- C10: the statistics result has exactly one column entry per column
of the frame, and every reported null count is at most the reported row
count (it is a `Nat`, hence at least 0). -/
theorem c10_statistics_invariants (df : DataFrame) :
    (get_object_statistics df).columns.length = df.colNames.length
    ∧ (∀ s, s ∈ (get_object_statistics df).columns →
        s.null_value_count ≤ (get_object_statistics df).rows.count) := by
  constructor
  · simp [get_object_statistics]
  · intro s hs
    unfold get_object_statistics at hs ⊢
    simp only [List.mem_map, List.mem_range] at hs
    rcases hs with ⟨j, _, rfl⟩
    exact List.countP_le_length _

/-- Witness for C10 on the concrete five-row frame. -/
theorem c10_witness :
    (get_object_statistics dfFive).columns.length = 1
    ∧ ({ name := "a", type := "float64", null_value_count := 2 } :
        ColumnStat).null_value_count ≤ (get_object_statistics dfFive).rows.count := by
  have h := c10_statistics_invariants dfFive
  exact ⟨h.1.trans (by decide),
    h.2 { name := "a", type := "float64", null_value_count := 2 } (by decide)⟩

/-! ### Claim C7 -/

/-- C7: for every bucket that exists but contains no objects (the
listing call succeeds with `KeyCount = 0` and no `Contents`),
`get_s3_bucket_stats` returns status 200 with `num_objects = 0` and
`objects = []`, not a failure body. -/
theorem c7_empty_bucket_success (store : S3Store) (data : S3BucketInput)
    (response : ListResponse)
    (hcall : list_call store data = Except.ok response)
    (hcount : response.keyCount = 0)
    (hcontents : response.contents = []) :
    get_s3_bucket_stats store data =
      BucketStatsResult.success 200 response.name 0 [] := by
  unfold get_s3_bucket_stats get_s3_bucket_stats_body
  rw [hcall]
  simp [hcontents, hcount]

/-- Witness for C7 on a store with one empty bucket. -/
theorem c7_witness :
    get_s3_bucket_stats emptyBucketStore
      { bucket_name := "mybucket", object_prefix := none } =
      BucketStatsResult.success 200 "mybucket" 0 [] :=
  c7_empty_bucket_success emptyBucketStore
    { bucket_name := "mybucket", object_prefix := none }
    { name := "mybucket", keyCount := 0, contents := [] } rfl rfl rfl

/-! ### Claim C6 -/

/-- C6 counterexample: a request in which both required fields are
present but empty strings is NOT rejected by validation — it parses
successfully and the handler then reaches the store (the response embeds
the store's own error), contradicting the claim that empty strings are
rejected before any store call. -/
theorem c6_counterexample :
    parseS3ObjectInput (some "") (some "") =
      Except.ok { bucket_name := "", object_key := "" }
    ∧ analyze_s3_object readParquetStub (errStore "NoSuchBucket")
        { bucket_name := "", object_key := "" } =
      AnalyzeResult.failure
        (FailureShape.messageOnly (processErrorMsg "NoSuchBucket")) := by
  exact ⟨rfl, by decide⟩

/-- C6 amended: requests with a missing required field — `bucket_name`
or `object_key` on the object routes, `bucket_name` or the
required-but-nullable prefix field on the bucket route — are rejected
by validation before any store call; present fields of any content —
empty strings and a null prefix included — pass validation, and the
handler then proceeds to the store (its response embeds the store's
answer), on the object route and the bucket route alike. -/
theorem c6_missing_fields_rejected (b k : String) (pv : Option String)
    (ob ok_ pb : Option String) (pp : Option (Option String))
    (readParquet : List Char → Except String DataFrame) (store : S3Store)
    (dataObj : S3ObjectInput) (dataBkt : S3BucketInput) (e1 e2 : String)
    (hstore : store.getObject dataObj.bucket_name dataObj.object_key =
      Except.error e1)
    (hlist : list_call store dataBkt = Except.error e2) :
    parseS3ObjectInput none ok_ = Except.error "Field required"
    ∧ parseS3ObjectInput ob none = Except.error "Field required"
    ∧ parseS3BucketInput none pp = Except.error "Field required"
    ∧ parseS3BucketInput pb none = Except.error "Field required"
    ∧ parseS3ObjectInput (some b) (some k) =
        Except.ok { bucket_name := b, object_key := k }
    ∧ parseS3BucketInput (some b) (some pv) =
        Except.ok { bucket_name := b, object_prefix := pv }
    ∧ analyze_s3_object readParquet store dataObj =
        AnalyzeResult.failure
          (FailureShape.messageOnly (processErrorMsg e1))
    ∧ get_s3_bucket_stats store dataBkt =
        BucketStatsResult.failure
          (FailureShape.withStatus 400 (processErrorMsg e2)) := by
  refine ⟨?_, ?_, ?_, ?_, rfl, rfl, ?_, ?_⟩
  · cases ok_ <;> rfl
  · cases ob <;> rfl
  · cases pp <;> rfl
  · cases pb <;> rfl
  · unfold analyze_s3_object analyze_body
    simp only [get_file_extension_eq dataObj.object_key, hstore]
  · unfold get_s3_bucket_stats get_s3_bucket_stats_body
    rw [hlist]

/-- Witness for C6 (amended): empty-string fields and an empty-string
prefix pass validation on both routes and reach the store. -/
theorem c6_witness :
    parseS3ObjectInput none (some "k") = Except.error "Field required"
    ∧ parseS3ObjectInput (some "b") none = Except.error "Field required"
    ∧ parseS3BucketInput none (some (some "p")) = Except.error "Field required"
    ∧ parseS3BucketInput (some "b") none = Except.error "Field required"
    ∧ parseS3ObjectInput (some "") (some "") =
        Except.ok { bucket_name := "", object_key := "" }
    ∧ parseS3BucketInput (some "") (some (some "")) =
        Except.ok { bucket_name := "", object_prefix := some "" }
    ∧ analyze_s3_object readParquetStub (errStore "NoSuchBucket")
        { bucket_name := "", object_key := "" } =
      AnalyzeResult.failure
        (FailureShape.messageOnly (processErrorMsg "NoSuchBucket"))
    ∧ get_s3_bucket_stats (errStore "NoSuchBucket")
        { bucket_name := "", object_prefix := some "" } =
      BucketStatsResult.failure
        (FailureShape.withStatus 400 (processErrorMsg "NoSuchBucket")) :=
  c6_missing_fields_rejected "" "" (some "") (some "b") (some "k")
    (some "b") (some (some "p")) readParquetStub (errStore "NoSuchBucket")
    { bucket_name := "", object_key := "" }
    { bucket_name := "", object_prefix := some "" }
    "NoSuchBucket" "NoSuchBucket" rfl rfl

/-! ### Claim C5 -/

/-- C5 counterexample: when the analyze handler catches an exception it
returns a message-only body with no `status` field, so not every handler
failure has the `{status, message}` shape. -/
theorem c5_counterexample :
    analyze_s3_object readParquetStub (errStore "boom")
      { bucket_name := "bucket", object_key := "key.csv" } =
      AnalyzeResult.failure
        (FailureShape.messageOnly (processErrorMsg "boom"))
    ∧ FailureShape.hasStatus
        (FailureShape.messageOnly (processErrorMsg "boom")) = false := by
  exact ⟨by decide, rfl⟩

/-- C5 amended: whenever a handler body raises, the stats and
bucket-stats handlers return the `{status: 400, message}` failure body
and the analyze handler returns the `{message}`-only failure body; in
every case the message embeds the underlying error's description. -/
theorem c5_failure_envelopes
    (readParquet : List Char → Except String DataFrame) (store : S3Store)
    (dataObj : S3ObjectInput) (dataBkt : S3BucketInput) (e1 e2 e3 : String)
    (h1 : analyze_body readParquet store dataObj = Except.error e1)
    (h2 : object_stats_body readParquet store dataObj = Except.error e2)
    (h3 : get_s3_bucket_stats_body store dataBkt = Except.error e3) :
    analyze_s3_object readParquet store dataObj =
      AnalyzeResult.failure (FailureShape.messageOnly (processErrorMsg e1))
    ∧ get_s3_object_stats readParquet store dataObj =
      StatsResult.failure (FailureShape.withStatus 400 (processErrorMsg e2))
    ∧ get_s3_bucket_stats store dataBkt =
      BucketStatsResult.failure
        (FailureShape.withStatus 400 (processErrorMsg e3)) := by
  refine ⟨?_, ?_, ?_⟩
  · unfold analyze_s3_object
    rw [h1]
  · unfold get_s3_object_stats
    rw [h2]
  · unfold get_s3_bucket_stats
    rw [h3]

/-- Witness for C5 (amended) on a store whose every call raises. -/
theorem c5_witness :
    analyze_s3_object readParquetStub (errStore "boom")
      { bucket_name := "b", object_key := "k.csv" } =
      AnalyzeResult.failure (FailureShape.messageOnly (processErrorMsg "boom"))
    ∧ get_s3_object_stats readParquetStub (errStore "boom")
      { bucket_name := "b", object_key := "k.csv" } =
      StatsResult.failure (FailureShape.withStatus 400 (processErrorMsg "boom"))
    ∧ get_s3_bucket_stats (errStore "boom")
      { bucket_name := "b", object_prefix := none } =
      BucketStatsResult.failure
        (FailureShape.withStatus 400 (processErrorMsg "boom")) :=
  c5_failure_envelopes readParquetStub (errStore "boom")
    { bucket_name := "b", object_key := "k.csv" }
    { bucket_name := "b", object_prefix := none } "boom" "boom" "boom"
    (by decide) (by decide) rfl

/-! ### Claim C1 -/

theorem to_records_head (df : DataFrame) (n : Nat) :
    (df.head n).to_records = df.to_records.take n := by
  unfold DataFrame.head DataFrame.to_records
  exact take_map _ n df.rows

theorem to_records_length (df : DataFrame) :
    df.to_records.length = df.rows.length := by
  unfold DataFrame.to_records
  exact List.length_map _ _

/-- C1: whenever the store fetch and the decode succeed with frame `df`,
the analyze handler returns status 200 with the first at-most-50 rows of
`df` as row records, in source order: the records are a prefix of the
full record list, with exactly `min 50 (row count)` entries — 50 of them
when the source has 1000 rows, all of them when it has at most 50. -/
theorem c1_analyze_truncates
    (readParquet : List Char → Except String DataFrame) (store : S3Store)
    (data : S3ObjectInput) (raw : List Char) (df : DataFrame)
    (hget : store.getObject data.bucket_name data.object_key = Except.ok raw)
    (hdecode : object_to_dataframe readParquet raw (extOf data.object_key) =
      Except.ok df) :
    analyze_s3_object readParquet store data =
      AnalyzeResult.success 200 (df.to_records.take 50)
    ∧ (df.to_records.take 50).length = min 50 df.rows.length
    ∧ (df.to_records.take 50).length ≤ 50
    ∧ (∀ i, i < 50 →
        (df.to_records.take 50).get? i = df.to_records.get? i)
    ∧ (df.rows.length = 1000 → (df.to_records.take 50).length = 50)
    ∧ (df.rows.length ≤ 50 → df.to_records.take 50 = df.to_records) := by
  have hlen : (df.to_records.take 50).length = min 50 df.rows.length := by
    rw [List.length_take, to_records_length]
  refine ⟨?_, hlen, ?_, ?_, ?_, ?_⟩
  · unfold analyze_s3_object analyze_body
    simp only [get_file_extension_eq data.object_key, hget, hdecode,
      to_records_head]
  · rw [hlen]
    exact Nat.min_le_left _ _
  · intro i hi
    exact get?_take_of_lt _ 50 i hi
  · intro h1000
    rw [hlen, h1000]
    decide
  · intro hle
    exact take_of_le_length _ 50 (by rw [to_records_length]; exact hle)

/-- Witness for C1: a three-row CSV object is returned whole, in order. -/
theorem c1_witness :
    analyze_s3_object readParquetStub (csvStore rawCsv)
      { bucket_name := "bucket", object_key := "data.csv" } =
      AnalyzeResult.success 200 (dfCsv.to_records.take 50)
    ∧ (dfCsv.to_records.take 50).length = 3 := by
  have h := c1_analyze_truncates readParquetStub (csvStore rawCsv)
    { bucket_name := "bucket", object_key := "data.csv" } rawCsv dfCsv
    rfl (by decide)
  exact ⟨h.1, h.2.1.trans (by decide)⟩

end S3Spec
